import Mathlib

/-!
# Verification of `azure-ai-agent-deploy-ez`

A shallow embedding, in Lean 4, of the pure decision logic of the repository
`johnmaeda/azure-ai-agent-deploy-ez`, together with theorems checking the
natural-language specification against the code.

Embedded components (file / symbol references are to the repository source):

* `scripts/agents/yaml_parser.py` — `parse_agent_yaml` (frontmatter regex,
  YAML dictionary check, required `name` field);
* `scripts/create-agent.py` — `_check_model_quota`, `select_deployment`, and
  the sidecar `.agent.txt` text written by `create_agent_interactive`;
* `scripts/agents/azure_discovery.py` — `select_from_list`;
* `agents/agent_builder.py` — `AgentBuilder.create_agent` (name-collision
  retry loop and post-create verification);
* `test-agent.py` — `parse_agent_file`.

External effects (subprocess calls, the Azure SDK, `input()`) are modelled as
explicit oracle parameters and input streams.  Python strings are modelled as
`String`/`List Char` restricted to the ASCII behaviours the scripts rely on.
-/

namespace AgentDeploy

/-! ## Python string primitives

Models of the Python `str` operations used by the scripts, on ASCII text:
`\s` of the `re` module and `str.strip()` whitespace, `str.lower()`,
substring containment (`in`), and `str.startswith`. -/

/-- The ASCII whitespace characters matched by Python's `\s` and stripped by
`str.strip()` (space, tab, newline, carriage return, vertical tab, form feed). -/
def pyIsSpace (c : Char) : Bool :=
  c == ' ' || c == '\t' || c == '\n' || c == '\r' || c == '\x0b' || c == '\x0c'

/-- ASCII lowering of one character, as done by `str.lower()` on ASCII text. -/
def asciiLower (c : Char) : Char :=
  if 'A' ≤ c ∧ c ≤ 'Z' then Char.ofNat (c.toNat + 32) else c

/-- `str.lower()` (ASCII fragment). -/
def pyLower (s : String) : String := ⟨s.data.map asciiLower⟩

/-- Drop leading Python whitespace (`str.lstrip()`). -/
def pyTrimL (l : List Char) : List Char := l.dropWhile pyIsSpace

/-- Drop trailing Python whitespace (`str.rstrip()`). -/
def pyTrimR (l : List Char) : List Char := (l.reverse.dropWhile pyIsSpace).reverse

/-- `str.strip()` on character lists. -/
def pyTrim (l : List Char) : List Char := pyTrimR (pyTrimL l)

/-- `str.strip()`. -/
def pyStrip (s : String) : String := ⟨pyTrim s.data⟩

/-- `str.rstrip("/")` as used by `AgentBuilder.__init__`. -/
def pyRstripSlash (s : String) : String :=
  ⟨(s.data.reverse.dropWhile (fun c => c == '/')).reverse⟩

/-- Boolean prefix test on character lists (`str.startswith`). -/
def isPfx : List Char → List Char → Bool
  | [], _ => true
  | _ :: _, [] => false
  | p :: ps, c :: cs => p == c && isPfx ps cs

/-- Boolean substring test (`needle in hay` on Python strings):
`containsSub hay needle`. -/
def containsSub : List Char → List Char → Bool
  | [], pat => isPfx pat []
  | l@(_ :: tl), pat => isPfx pat l || containsSub tl pat

/-- Python `int(s)` on an already-stripped string: an optional sign followed
by at least one decimal digit (digit-grouping underscores are not modelled;
no claim depends on them). -/
def digitsVal : List Char → Option Nat
  | [] => none
  | [c] => if c.isDigit then some (c.toNat - '0'.toNat) else none
  | c :: cs =>
    if c.isDigit then
      match digitsVal cs with
      | some n => some ((c.toNat - '0'.toNat) * 10 ^ cs.length + n)
      | none => none
    else none

/-- Python `int(s)` for a stripped string `s` (raises = `none`). -/
def pyInt (s : String) : Option Int :=
  match s.data with
  | '-' :: rest => (digitsVal rest).map (fun n => -(n : Int))
  | '+' :: rest => (digitsVal rest).map (fun n => (n : Int))
  | l => (digitsVal l).map (fun n => (n : Int))

/-- Prepend a character to the first line of a line list. -/
def consHead (c : Char) : List (List Char) → List (List Char)
  | [] => [[c]]
  | l :: ls => (c :: l) :: ls

/-- Split a text into its lines at `'\n'` (Python `str.splitlines` as used via
iteration, and the line structure of `re` texts). -/
def splitLines : List Char → List (List Char)
  | [] => [[]]
  | c :: rest =>
    if c = '\n' then [] :: splitLines rest
    else consHead c (splitLines rest)

/-! ## The frontmatter regex of `parse_agent_yaml`

`yaml_parser.py` line 68 matches `r'^---\s*\n(.*?)\n---\s*\n?(.*)'` with
`re.DOTALL` against the document.  The embedding reproduces Python's
backtracking order exactly:

* after the literal `---`, the greedy `\s*\n` picks the **largest** `w` such
  that the first `w` characters are whitespace and character `w` is `'\n'`
  (i.e. the last newline inside the leading whitespace run), backtracking to
  smaller such `w` on failure of the remainder;
* the lazy `(.*?)\n---` then finds the **earliest** following occurrence of
  `"\n---"`;
* the trailing `\s*\n?(.*)` always succeeds, with the greedy `\s*` consuming
  the whole whitespace run after the closing marker and `\n?` matching empty,
  so group 2 is the remaining text with its leading whitespace removed. -/

/-- The four characters `"\n---"` separating the metadata block from the body. -/
def nlMarker : List Char := ['\n', '-', '-', '-']

/-- Find the earliest occurrence of `"\n---"`: returns the characters before
it (regex group 1) and the characters after it. -/
def findSplit : List Char → Option (List Char × List Char)
  | [] => none
  | c :: tl =>
    if isPfx nlMarker (c :: tl) then some ([], tl.drop 3)
    else
      match findSplit tl with
      | some (a, b) => some (c :: a, b)
      | none => none

/-- Indices of `'\n'` inside a character list (ascending). -/
def nlPositions (l : List Char) : List Nat :=
  (List.range l.length).filter (fun i => l.get? i == some '\n')

/-- Try the backtracking choices `w` for the leading `\s*\n` (given largest
first); for each, look for the earliest `"\n---"` in the rest. -/
def tryWs : List Nat → List Char → Option (List Char × List Char)
  | [], _ => none
  | w :: ws, rest =>
    match findSplit (rest.drop (w + 1)) with
    | some (g1, after) => some (g1, after.dropWhile pyIsSpace)
    | none => tryWs ws rest

/-- `re.match(r'^---\s*\n(.*?)\n---\s*\n?(.*)', content, re.DOTALL)`:
`some (group 1, group 2)` on a match, `none` otherwise
(`yaml_parser.py` lines 68–69). -/
def pyReMatchFrontmatter (content : String) : Option (String × String) :=
  if isPfx ['-', '-', '-'] content.data then
    let rest := content.data.drop 3
    let pre := rest.takeWhile pyIsSpace
    match tryWs (nlPositions pre).reverse rest with
    | some (g1, g2) => some (⟨g1⟩, ⟨g2⟩)
    | none => none
  else none

/-! ## Python values and the YAML oracle

The repository delegates YAML parsing to PyYAML, which the specification
declares an external black box.  `parse_agent_yaml` is therefore parameterised
by a loader oracle `String → Except String PyVal`; theorems that do not
depend on YAML semantics quantify over the oracle. -/

/-- The Python values that `yaml.safe_load` can return and that
`parse_agent_yaml` inspects (`None`, strings, numbers, booleans, lists,
dictionaries). -/
inductive PyVal where
  | vnone : PyVal
  | vstr : String → PyVal
  | vint : Int → PyVal
  | vbool : Bool → PyVal
  | vlist : List PyVal → PyVal
  | vdict : List (String × PyVal) → PyVal

/-- Python truthiness of the modelled values (`if not name`). -/
def pyTruthy : PyVal → Bool
  | .vnone => false
  | .vstr s => s ≠ ""
  | .vint n => n ≠ 0
  | .vbool b => b
  | .vlist l => !l.isEmpty
  | .vdict m => !m.isEmpty

/-- `dict.get(k)`: the first binding of `k`, else `None`. -/
def pyGet : List (String × PyVal) → String → PyVal
  | [], _ => .vnone
  | (k, v) :: tl, key => if k = key then v else pyGet tl key

/-- `dict.get(k, default)`. -/
def pyGetD (m : List (String × PyVal)) (key : String) (dflt : PyVal) : PyVal :=
  match m with
  | [] => dflt
  | (k, v) :: tl => if k = key then v else pyGetD tl key dflt

/-- `k in dict`. -/
def hasKey : List (String × PyVal) → String → Bool
  | [], _ => false
  | (k, _) :: tl, key => k == key || hasKey tl key

/-! ## `parse_agent_yaml` (`yaml_parser.py` lines 41–99)

The embedding takes the document content (the file read is I/O) and the YAML
loader oracle, and returns the parsed `AgentConfig` or the error raised.  The
four `ValueError`s of the source are the four constructors of `ParseError`:
the spec's `FormatError` covers `formatError` ("Invalid agent file format")
and `notFlatMapping` ("Frontmatter must be a YAML dictionary"), and its
`MissingFieldError` is `missingField` ("Agent must have a 'name' field"). -/

/-- Parsed agent configuration (`yaml_parser.py` `AgentConfig`).  Field values
other than `instructions` come from the YAML dictionary unchecked, so they are
modelled as `PyVal` (`model_hint = None` is `PyVal.vnone`). -/
structure AgentConfig where
  name : PyVal
  description : PyVal
  instructions : String
  model_hint : PyVal

/-- The errors `parse_agent_yaml` raises. -/
inductive ParseError where
  | formatError : ParseError
  | invalidYaml : String → ParseError
  | notFlatMapping : ParseError
  | missingField : ParseError

/-- `parse_agent_yaml` on document content, parameterised by the YAML loader. -/
def parse_agent_yaml (yamlLoad : String → Except String PyVal) (content : String) :
    Except ParseError AgentConfig :=
  match pyReMatchFrontmatter content with
  | none => .error .formatError
  | some (frontmatter_str, body) =>
    let instructions := pyStrip body
    match yamlLoad frontmatter_str with
    | .error e => .error (.invalidYaml e)
    | .ok frontmatter =>
      match frontmatter with
      | .vdict m =>
        let name := pyGet m "name"
        if pyTruthy name then
          .ok { name := name
                description := pyGetD m "description" (.vstr "")
                instructions := instructions
                model_hint := pyGet m "model" }
        else .error .missingField
      | _ => .error .notFlatMapping

/-! ## A concrete YAML loader

Modelled from the spec: the YAML parsing library (PyYAML's `yaml.safe_load`)
is out of scope of the repository ("treated as external collaborators ...
the YAML parsing library"); the spec describes the metadata block as "a
key-value mapping".  This loader implements the fragment of YAML exercised by
the claims' concrete documents: an empty document is `None`, a `- item` block
is a list of strings, and `key: value` lines form a mapping in which a bare
`key:` followed by indented `key: value` lines is a nested mapping. -/

/-- Split a colon-bearing line at its first `':'`. -/
def splitColon : List Char → Option (List Char × List Char)
  | [] => none
  | ':' :: tl => some ([], tl)
  | c :: tl =>
    match splitColon tl with
    | some (a, b) => some (c :: a, b)
    | none => none

/-- A line indented by at least one space. -/
def indentedLine (l : List Char) : Bool :=
  match l with
  | ' ' :: _ => true
  | _ => false

/-- Split off the leading run of indented lines. -/
def splitIndent : List (List Char) → (List (List Char) × List (List Char))
  | [] => ([], [])
  | l :: rest =>
    if indentedLine l then
      let (a, b) := splitIndent rest
      (l :: a, b)
    else ([], l :: rest)

/-- Parse indented sub-lines as a flat string-valued mapping. -/
def yamlFlatPairs : List (List Char) → Except String (List (String × PyVal))
  | [] => .ok []
  | l :: rest =>
    match splitColon (pyTrim l) with
    | none => .error "not a mapping line"
    | some (k, v) =>
      match yamlFlatPairs rest with
      | .ok tl => .ok ((⟨pyTrim k⟩, PyVal.vstr ⟨pyTrim v⟩) :: tl)
      | .error e => .error e

/-- Parse top-level mapping lines, with one level of nesting (fuelled by the
number of lines). -/
def yamlMapLines : Nat → List (List Char) → Except String (List (String × PyVal))
  | 0, _ => .error "out of fuel"
  | _, [] => .ok []
  | fuel + 1, l :: rest =>
    match splitColon l with
    | none => .error "not a mapping line"
    | some (k, v) =>
      let vs := pyTrim v
      if vs.isEmpty then
        let (sub, rest1) := splitIndent rest
        match yamlFlatPairs sub, yamlMapLines fuel rest1 with
        | .ok subm, .ok tl => .ok ((⟨pyTrim k⟩, PyVal.vdict subm) :: tl)
        | .error e, _ => .error e
        | _, .error e => .error e
      else
        match yamlMapLines fuel rest with
        | .ok tl => .ok ((⟨pyTrim k⟩, PyVal.vstr ⟨vs⟩) :: tl)
        | .error e => .error e

/-- Parse `- item` lines as a list of strings. -/
def yamlListLines : List (List Char) → Except String PyVal
  | [] => .ok (.vlist [])
  | l :: rest =>
    match l with
    | '-' :: ' ' :: v =>
      match yamlListLines rest with
      | .ok (.vlist tl) => .ok (.vlist (PyVal.vstr ⟨pyTrim v⟩ :: tl))
      | .ok _ => .error "not a list line"
      | .error e => .error e
    | _ => .error "not a list line"

/-- Modelled from the spec: `yaml.safe_load` on the YAML fragment used by the
claims (see the section comment above). -/
def yamlSafeLoad (s : String) : Except String PyVal :=
  let ls := (splitLines s.data).filter (fun l => !l.all pyIsSpace)
  match ls with
  | [] => .ok .vnone
  | l :: _ =>
    if isPfx ['-', ' '] l then yamlListLines ls
    else
      match yamlMapLines (ls.length + 1) ls with
      | .ok m => .ok (.vdict m)
      | .error e => .error e

/-! ## `_check_model_quota` (`create-agent.py` lines 225–272)

The `az cognitiveservices usage list` subprocess is modelled by a
`QueryOutcome` oracle: a non-zero exit, a raised exception (JSON decoding,
`int()` conversion, ...), or a parsed list of usage entries.  A usage entry
carries `name.value` and the integers `currentValue` and `limit` (the
source's `.get(..., 0)` defaults are applied in the modelled record). -/

/-- One entry of the usage list returned by the quota query. -/
structure Usage where
  name : String
  currentValue : Int
  limit : Int
deriving DecidableEq

/-- Outcome of the `az cognitiveservices usage list` call. -/
inductive QueryOutcome where
  | toolFail : QueryOutcome
  | exc : String → QueryOutcome
  | ok : List Usage → QueryOutcome

/-- The SKU-category substrings that cause an entry to be skipped. -/
def skipTokens : List String :=
  ["finetune", "batch", "realtime", "audio", "transcribe", "tts", "diarize"]

/-- `any(x in name for x in [...])` — the skip filter on the lowered name. -/
def quotaSkip (nameL : String) : Bool :=
  skipTokens.any (fun t => containsSub nameL.data t.data)

/-- `model_lower in name and ("standard" in name or "globalstandard" in name)`. -/
def quotaMatch (modelL nameL : String) : Bool :=
  containsSub nameL.data modelL.data &&
    (containsSub nameL.data "standard".data || containsSub nameL.data "globalstandard".data)

/-- An entry that survives the skip filter and matches the model and SKU tier. -/
def keptEntry (model_name : String) (u : Usage) : Bool :=
  !quotaSkip (pyLower u.name) && quotaMatch (pyLower model_name) (pyLower u.name)

/-- The `for usage in usages` loop of `_check_model_quota`. -/
def quotaScan (model_name : String) : List Usage → Bool × String
  | [] => (false, "No Standard/GlobalStandard quota available")
  | u :: rest =>
    let nameL := pyLower u.name
    if quotaSkip nameL then quotaScan model_name rest
    else if quotaMatch (pyLower model_name) nameL then
      let available := u.limit - u.currentValue
      if available > 0 then
        let skuType :=
          if containsSub nameL.data "globalstandard".data then "GlobalStandard" else "Standard"
        (true, skuType ++ ": " ++ toString available ++ "K TPM available")
      else quotaScan model_name rest
    else quotaScan model_name rest

/-- `_check_model_quota(location, model_name)` given the query outcome. -/
def check_model_quota (model_name : String) (q : QueryOutcome) : Bool × String :=
  match q with
  | .toolFail => (true, "(quota check unavailable)")
  | .exc e => (true, "(quota check error: " ++ e ++ ")")
  | .ok usages => quotaScan model_name usages

/-! ## `select_from_list` (`azure_discovery.py` lines 238–270)

`input()` is modelled by a stream of strings; reaching `input()` with an
exhausted stream is the `eof` outcome (Python would raise `EOFError`, which
the function does not catch).  A `KeyboardInterrupt` mid-prompt is not
modelled. -/

/-- Result of `select_from_list`: the returned `Optional[int]`, or an
uncaught `EOFError`. -/
inductive SelListOut where
  | res : Option Int → SelListOut
  | eof : SelListOut

/-- `select_from_list(items, prompt, display_fn)`: returns the result and the
unconsumed input stream. -/
def select_from_list {α : Type} (items : List α) (inputs : List String) :
    SelListOut × List String :=
  if items.isEmpty then (.res none, inputs)
  else if items.length = 1 then (.res (some 0), inputs)
  else
    match inputs with
    | [] => (.eof, [])
    | choice :: rest =>
      match pyInt (pyStrip choice) with
      | none => (.res none, rest)
      | some n =>
        let idx := n - 1
        if 0 ≤ idx ∧ idx < (items.length : Int) then (.res (some idx), rest)
        else (.res none, rest)

/-! ## `select_deployment` (`create-agent.py` lines 309–431)

External calls are modelled as oracles with the values the source would
obtain: `quota` is the `_check_model_quota(project.location, model_hint)`
result (called with identical arguments in every branch), `deployOk` the
`_deploy_model` result, and `refreshed` the deployment list re-queried after
a successful deploy.  `sys.exit(1)` is the `exitFail` outcome. -/

/-- A model deployment record (`azure_discovery.py` `ModelDeployment`). -/
structure ModelDeployment where
  deployment_name : String
  model_name : String
  version : String
deriving DecidableEq

/-- Result of `select_deployment`. -/
inductive SelOut where
  | selected : ModelDeployment → SelOut
  | exitFail : SelOut
  | eof : SelOut

/-- First-pass test: exact case-insensitive match on deployment or model name
(`create-agent.py` lines 347–348). -/
def exactMatchB (hint : String) (d : ModelDeployment) : Bool :=
  hint == pyLower d.deployment_name || hint == pyLower d.model_name

/-- Second-pass test: substring match on deployment or model name
(lines 354–355). -/
def substrMatchB (hint : String) (d : ModelDeployment) : Bool :=
  containsSub (pyLower d.deployment_name).data hint.data ||
    containsSub (pyLower d.model_name).data hint.data

/-- The final numbered-list selection (lines 422–431). -/
def selectDeploymentPick (ds : List ModelDeployment) (inputs : List String) :
    SelOut × List String :=
  match select_from_list ds inputs with
  | (.res none, rest) => (.exitFail, rest)
  | (.res (some i), rest) =>
    match ds.get? i.toNat with
    | some d => (.selected d, rest)
    | none => (.exitFail, rest)
  | (.eof, rest) => (.eof, rest)

/-- The model-hint matching block and final selection (lines 342–431), on the
current deployment list `ds`. -/
def selectDeploymentMatch (ds : List ModelDeployment) (model_hint : String)
    (quota : Bool × String) (deployOk : Bool) (refreshed : List ModelDeployment)
    (inputs : List String) : SelOut × List String :=
  if model_hint ≠ "" then
    let hint := pyLower model_hint
    match ds.find? (exactMatchB hint) with
    | some d => (.selected d, inputs)
    | none =>
      let subs := ds.filter (substrMatchB hint)
      match subs with
      | [d] =>
        -- exactly one substring match: propose it (lines 358–378)
        match inputs with
        | [] => (.eof, [])
        | r :: rest =>
          if pyLower (pyStrip r) ≠ "n" then (.selected d, rest)
          else if quota.1 then
            match rest with
            | [] => (.eof, [])
            | r2 :: rest2 =>
              if pyLower (pyStrip r2) ≠ "n" then
                if deployOk then
                  match refreshed.find? (exactMatchB hint) with
                  | some d2 => (.selected d2, rest2)
                  | none => selectDeploymentPick refreshed rest2
                else selectDeploymentPick ds rest2
              else selectDeploymentPick ds rest2
          else selectDeploymentPick ds rest
      | _ :: _ :: _ =>
        -- several substring matches: list them, offer to deploy (lines 379–397)
        if quota.1 then
          match inputs with
          | [] => (.eof, [])
          | r :: rest =>
            if pyLower (pyStrip r) ≠ "n" then
              if deployOk then
                match refreshed.find? (exactMatchB hint) with
                | some d2 => (.selected d2, rest)
                | none => selectDeploymentPick refreshed rest
              else selectDeploymentPick ds rest
            else selectDeploymentPick ds rest
        else selectDeploymentPick ds inputs
      | [] =>
        -- no matches at all: offer to deploy outright (lines 399–420)
        if quota.1 then
          match inputs with
          | [] => (.eof, [])
          | r :: rest =>
            if pyLower (pyStrip r) ≠ "n" then
              if deployOk then
                match refreshed.find? (fun d => exactMatchB hint d || substrMatchB hint d) with
                | some d2 => (.selected d2, rest)
                | none => selectDeploymentPick refreshed rest
              else selectDeploymentPick ds rest
            else selectDeploymentPick ds rest
        else selectDeploymentPick ds inputs
  else selectDeploymentPick ds inputs

/-- `select_deployment(discovery, project, model_hint)` given the initially
listed deployments and the oracles (lines 309–431; the empty-list deploy
offer is lines 316–340). -/
def select_deployment (deployments : List ModelDeployment) (model_hint : String)
    (quota : Bool × String) (deployOk : Bool) (refreshed : List ModelDeployment)
    (inputs : List String) : SelOut × List String :=
  if deployments.isEmpty then
    if model_hint ≠ "" then
      if quota.1 then
        match inputs with
        | [] => (.eof, [])
        | r :: rest =>
          if pyLower (pyStrip r) ≠ "n" then
            if deployOk then
              if refreshed.isEmpty then (.exitFail, rest)
              else selectDeploymentMatch refreshed model_hint quota deployOk refreshed rest
            else (.exitFail, rest)
          else
            -- user declined the deploy offer: execution falls through to the
            -- matching block with the still-empty list
            selectDeploymentMatch [] model_hint quota deployOk refreshed rest
      else (.exitFail, inputs)
    else (.exitFail, inputs)
  else selectDeploymentMatch deployments model_hint quota deployOk refreshed inputs

/-! ## `AgentBuilder.create_agent` (`agent_builder.py` lines 43–138)

The SDK is modelled by two oracles keyed by the client handle in use:
`createFn g n` is `client.agents.create(name=n, definition=...)` on the
client constructed `g`-th (the source only ever raises `ResourceExistsError`
to the collision handler; any other exception propagates), and `getFn g n` is
`client.agents.get(agent_name=n)` (an exception, a falsy result, or a
record).  `_get_client` is modelled by a generation counter so that "a
freshly constructed client handle" is observable; the list of
`(client generation, name)` pairs passed to `create` is returned alongside
the result so the retry behaviour can be stated. -/

/-- Errors of the modelled `client.agents.create`. -/
inductive CreateErr where
  | resourceExists : CreateErr
  | other : String → CreateErr

/-- The dict-like agent record returned by the SDK (`agent.get('id')`,
`agent.get('name')`). -/
structure AgentRec where
  id : Option String
  name : Option String
deriving DecidableEq

/-- Result of a successful creation (`agent_builder.py` `CreatedAgent`).
`agent_id` is `agent.get('id')`, which the source never checks on the
creation result itself, hence `Option String`. -/
structure CreatedAgent where
  agent_id : Option String
  name : String
  model : String
  endpoint : String
  resource_group : String
  project_name : String
deriving DecidableEq

/-- Errors raised by the modelled `create_agent`. -/
inductive BuildErr where
  | cancelled : String → BuildErr
  | inputExhausted : BuildErr
  | sdkError : String → BuildErr
  | verifyFailed : String → BuildErr

/-- `self._client` plus the construction counter. -/
structure BuilderSt where
  client : Option Nat
  nextGen : Nat

/-- `self._get_client()`: reuse the cached client or construct a fresh one. -/
def getClient (st : BuilderSt) : Nat × BuilderSt :=
  match st.client with
  | some c => (c, st)
  | none => (st.nextGen, ⟨some st.nextGen, st.nextGen + 1⟩)

/-- The `while True` creation loop (lines 103–120): returns the agent record
and final name (or error), the client generation in use after the loop, the
builder state, and the trace of `create` calls. -/
def createLoop (createFn : Nat → String → Except CreateErr AgentRec) :
    List String → Nat → BuilderSt → String → List (Nat × String) →
    Except BuildErr (AgentRec × String) × Nat × BuilderSt × List (Nat × String)
  | [], c, st, current, trace =>
    match createFn c current with
    | .ok agent => (.ok (agent, current), c, st, trace ++ [(c, current)])
    | .error (.other m) => (.error (.sdkError m), c, st, trace ++ [(c, current)])
    | .error .resourceExists => (.error .inputExhausted, c, st, trace ++ [(c, current)])
  | inp :: rest, c, st, current, trace =>
    match createFn c current with
    | .ok agent => (.ok (agent, current), c, st, trace ++ [(c, current)])
    | .error (.other m) => (.error (.sdkError m), c, st, trace ++ [(c, current)])
    | .error .resourceExists =>
      let newName := pyStrip inp
      if pyLower newName = "q" ∨ newName = "" then
        (.error (.cancelled current), c, st, trace ++ [(c, current)])
      else
        let (c2, st2) := getClient ⟨none, st.nextGen⟩
        createLoop createFn rest c2 st2 newName (trace ++ [(c, current)])

/-- Truthiness of `verified.get('id')` (`not verified.get('id')`): present
and non-empty. -/
def truthyId (v : AgentRec) : Bool :=
  match v.id with
  | none => false
  | some s => s ≠ ""

/-- The post-loop part of `create_agent`: the verification read-back
(lines 122–129) and the construction of the `CreatedAgent` (lines 131–138).
The read-back wraps every failure — including the `RuntimeError` it raises
itself, which its own `except Exception` catches — into the
"was not created" error. -/
def finishCreate (getFn : Nat → String → Except String (Option AgentRec))
    (model endpointStripped resource_group project_name : String)
    (out : Except BuildErr (AgentRec × String) × Nat × BuilderSt × List (Nat × String)) :
    Except BuildErr CreatedAgent × List (Nat × String) :=
  match out with
  | (.error e, _, _, trace) => (.error e, trace)
  | (.ok (agent, current), cF, _, trace) =>
    match getFn cF current with
    | .error e =>
      (.error (.verifyFailed ("Agent '" ++ current ++ "' was not created: " ++ e)), trace)
    | .ok none =>
      (.error (.verifyFailed ("Agent '" ++ current ++ "' was not created: Agent '" ++
        current ++ "' creation could not be verified")), trace)
    | .ok (some v) =>
      if truthyId v then
        (.ok { agent_id := agent.id
               name := agent.name.getD current
               model := model
               endpoint := endpointStripped
               resource_group := resource_group
               project_name := project_name }, trace)
      else
        (.error (.verifyFailed ("Agent '" ++ current ++ "' was not created: Agent '" ++
          current ++ "' creation could not be verified")), trace)

/-- `AgentBuilder(endpoint)` followed by `create_agent(model, name,
instructions, description, resource_group, project_name)` (lines 46–138),
returning the result and the `create`-call trace. -/
def create_agent (createFn : Nat → String → Except CreateErr AgentRec)
    (getFn : Nat → String → Except String (Option AgentRec))
    (inputs : List String) (endpoint model name instructions description
    resource_group project_name : String) :
    Except BuildErr CreatedAgent × List (Nat × String) :=
  let _ := instructions
  let _ := description
  let (c0, st1) := getClient ⟨none, 0⟩
  finishCreate getFn model (pyRstripSlash endpoint) resource_group project_name
    (createLoop createFn inputs c0 st1 name [])

/-! ## The sidecar `.agent.txt` file

`create_agent_interactive` writes the result file with one f-string
(`create-agent.py` lines 528–553); its lines, separated by `'\n'` and with a
trailing newline, are reproduced here verbatim (`showOpt` renders the
`Optional` agent id the way Python's f-string renders `None`).
`test-agent.py` lines 20–42 parse the file back. -/

/-- Python's rendering of an `Optional[str]` in an f-string. -/
def showOpt : Option String → String
  | none => "None"
  | some s => s

/-- The lines of the sidecar file written for configuration name `cfgName`
and creation result `r`. -/
def sidecarLines (cfgName : String) (r : CreatedAgent) : List String :=
  [ "Agent Created: " ++ cfgName,
    "Agent ID: " ++ showOpt r.agent_id,
    "Endpoint: " ++ r.endpoint,
    "Model: " ++ r.model,
    "",
    "To use this agent in Python:",
    "",
    "    from azure.ai.projects import AIProjectClient",
    "    from azure.identity import DefaultAzureCredential",
    "    ",
    "    client = AIProjectClient(",
    "        endpoint=\"" ++ r.endpoint ++ "\",",
    "        credential=DefaultAzureCredential(),",
    "    )",
    "    ",
    "    # Get OpenAI client for responses API",
    "    openai_client = client.get_openai_client()",
    "    ",
    "    # Chat with the agent",
    "    response = openai_client.responses.create(",
    "        input=[\x7b\"role\": \"user\", \"content\": \"Your message here\"\x7d],",
    "        extra_body=\x7b\"agent\": \x7b\"name\": \"" ++ r.name ++
      "\", \"type\": \"agent_reference\"\x7d\x7d,",
    "    )",
    "    ",
    "    print(response.output_text)",
    "" ]

/-- Join lines with `'\n'`. -/
def joinNL : List (List Char) → List Char
  | [] => []
  | [l] => l
  | l :: ls => l ++ '\n' :: joinNL ls

/-- The sidecar file content (`info_file.write_text(f"""...""")`). -/
def sidecarText (cfgName : String) (r : CreatedAgent) : String :=
  ⟨joinNL ((sidecarLines cfgName r).map String.data)⟩

/-- `line.startswith("Agent ID:")` key. -/
def keyAgentId : List Char := "Agent ID:".data

/-- `line.startswith("Endpoint:")` key. -/
def keyEndpoint : List Char := "Endpoint:".data

/-- `line.split(":", 1)[1]` for a line known to contain a colon. -/
def splitColonAfter (l : List Char) : List Char :=
  match splitColon l with
  | some (_, after) => after
  | none => []

/-- One iteration of the `for line in content.splitlines()` loop of
`parse_agent_file` over the accumulator `(agent_name, endpoint)`. -/
def parseLineStep (st : Option String × Option String) (line : List Char) :
    Option String × Option String :=
  let s := pyTrim line
  if isPfx keyAgentId s then (some ⟨pyTrim (splitColonAfter s)⟩, st.2)
  else if isPfx keyEndpoint s then (st.1, some ⟨pyTrim (splitColonAfter s)⟩)
  else st

/-- `parse_agent_file` of `test-agent.py` (lines 20–42) on file content. -/
def parse_agent_file (content : String) : Except String (String × String) :=
  match (splitLines content.data).foldl parseLineStep (none, none) with
  | (some a, some e) =>
    if a = "" ∨ e = "" then .error "Could not parse agent name and endpoint"
    else .ok (a, e)
  | _ => .error "Could not parse agent name and endpoint"

/-! ## Concrete fixtures

Concrete documents, records and oracles used by witnesses and
counterexamples. -/

/-- The spec's scenario document `---\nname: bot\ndescription: test\n---\nBe nice.`. -/
def c1doc : String := "---\nname: bot\ndescription: test\n---\nBe nice."

/-- The configuration the scenario document parses to. -/
def c1cfg : AgentConfig :=
  { name := .vstr "bot", description := .vstr "test",
    instructions := "Be nice.", model_hint := .vnone }

/-- A document with frontmatter but no `name` key. -/
def c2docNoName : String := "---\ndescription: test\n---\nBody"

/-- A document whose frontmatter is a mapping with a nested mapping value. -/
def c9doc : String := "---\nname:\n  inner: x\n---\nBody"

/-- What `parse_agent_yaml` returns on `c9doc`. -/
def c9cfg : AgentConfig :=
  { name := .vdict [("inner", .vstr "x")], description := .vstr "",
    instructions := "Body", model_hint := .vnone }

/-- A document whose frontmatter is a YAML list. -/
def c9listdoc : String := "---\n- a\n- b\n---\nBody"

/-- A creation result whose agent id differs from its name. -/
def c4agent : CreatedAgent :=
  { agent_id := some "agent-xyz-123", name := "bot", model := "gpt-4o-mini",
    endpoint := "https://res.services.ai.azure.com/api/projects/proj",
    resource_group := "rg", project_name := "proj" }

/-- A usage list whose only matching entries have zero and negative
availability. -/
def c3usages : List Usage :=
  [ { name := "OpenAI.Standard.gpt-4o", currentValue := 10, limit := 10 },
    { name := "OpenAI.GlobalStandard.gpt-4o", currentValue := 9, limit := 5 },
    { name := "OpenAI.Standard.gpt-4o.finetune", currentValue := 0, limit := 50 } ]

/-- A usage list with one matching entry with positive availability. -/
def c3usagesPos : List Usage :=
  [ { name := "OpenAI.GlobalStandard.gpt-4o", currentValue := 5, limit := 8 } ]

/-- A creation oracle for which the name `bot` collides and every other name
succeeds. -/
def c5createFn : Nat → String → Except CreateErr AgentRec := fun _ n =>
  if n = "bot" then .error .resourceExists else .ok ⟨some "id-1", some n⟩

/-- A read-back oracle that confirms every name. -/
def c5getFn : Nat → String → Except String (Option AgentRec) := fun _ n =>
  .ok (some ⟨some "id-1", some n⟩)

/-- A creation oracle that succeeds immediately. -/
def c6createFn : Nat → String → Except CreateErr AgentRec := fun _ n =>
  .ok ⟨some "id-9", some n⟩

/-- A read-back oracle that raises. -/
def c6getFnRaise : Nat → String → Except String (Option AgentRec) := fun _ _ =>
  .error "connection reset"

/-- A read-back oracle that returns nothing. -/
def c6getFnNone : Nat → String → Except String (Option AgentRec) := fun _ _ =>
  .ok none

/-- A read-back oracle that returns a record with no identifier. -/
def c6getFnNoId : Nat → String → Except String (Option AgentRec) := fun _ n =>
  .ok (some ⟨none, some n⟩)

/-- Two deployments of which exactly one matches the hint `GPT-4o-mini`
case-insensitively. -/
def c7deps : List ModelDeployment :=
  [ { deployment_name := "gpt-4o-mini", model_name := "gpt-4o-mini", version := "1" },
    { deployment_name := "o3dep", model_name := "o3", version := "2" } ]

/-- Whether a `PyVal` is a dictionary (`isinstance(frontmatter, dict)`). -/
def isDictB : PyVal → Bool
  | .vdict _ => true
  | _ => false

/-! # Theorems -/

/-! ## Helper lemmas -/

/-- A key absent from a dictionary makes `get` return `None`. -/
theorem pyGet_eq_vnone_of_not_hasKey (m : List (String × PyVal)) (k : String)
    (h : hasKey m k = false) : pyGet m k = .vnone := by
  induction m with
  | nil => rfl
  | cons p tl ih =>
    obtain ⟨k1, v1⟩ := p
    simp only [hasKey, Bool.or_eq_false_iff, beq_eq_false_iff_ne, ne_eq] at h
    simp only [pyGet, if_neg h.1, ih h.2]

/-- The one-step unfolding of the creation loop. -/
theorem createLoop_eq (createFn : Nat → String → Except CreateErr AgentRec)
    (inputs : List String) (c : Nat) (st : BuilderSt) (current : String)
    (trace : List (Nat × String)) :
    createLoop createFn inputs c st current trace =
      match createFn c current with
      | .ok agent => (.ok (agent, current), c, st, trace ++ [(c, current)])
      | .error (.other m) => (.error (.sdkError m), c, st, trace ++ [(c, current)])
      | .error .resourceExists =>
        match inputs with
        | [] => (.error .inputExhausted, c, st, trace ++ [(c, current)])
        | inp :: rest =>
          let newName := pyStrip inp
          if pyLower newName = "q" ∨ newName = "" then
            (.error (.cancelled current), c, st, trace ++ [(c, current)])
          else
            let (c2, st2) := getClient ⟨none, st.nextGen⟩
            createLoop createFn rest c2 st2 newName (trace ++ [(c, current)]) := by
  cases inputs <;> rfl

/-- If a match failed, `parse_agent_yaml` raises the format error. -/
theorem parse_formatError_of_reMatch_none
    (yamlLoad : String → Except String PyVal) (content : String)
    (h : pyReMatchFrontmatter content = none) :
    parse_agent_yaml yamlLoad content = .error .formatError := by
  unfold parse_agent_yaml
  rw [h]

/-- If the document does not begin with the `---` marker, the regex fails. -/
theorem reMatch_none_of_no_marker (content : String)
    (h : isPfx ['-', '-', '-'] content.data = false) :
    pyReMatchFrontmatter content = none := by
  unfold pyReMatchFrontmatter
  rw [h]
  rfl

/-- `findSplit` fails exactly when the text has no `"\n---"` occurrence; here
the direction needed: no occurrence, no split. -/
theorem findSplit_eq_none (l : List Char) (h : containsSub l nlMarker = false) :
    findSplit l = none := by
  induction l with
  | nil => rfl
  | cons c tl ih =>
    simp only [containsSub, Bool.or_eq_false_iff] at h
    simp only [findSplit, h.1, Bool.false_eq_true, if_false, ih h.2]

/-! ## C1 — scenario parse and trimmed instructions -/

/-- C1: the document `---\nname: bot\ndescription: test\n---\nBe nice.`
parses to name `bot`, description `test`, no model hint, and instructions
`Be nice.`; and in general, every successfully parsed document's
`instructions` equals the regex's group 2 — the text after the closing
marker — with surrounding whitespace stripped (`match.group(2).strip()`,
`yaml_parser.py` line 75; the greedy `\s*` after the closing `---` removes
leading whitespace already, so group 2 stripped equals the whole text after
the closing marker stripped). -/
theorem yaml_instructions_trimmed :
    parse_agent_yaml yamlSafeLoad c1doc = .ok c1cfg
    ∧ ∀ (yamlLoad : String → Except String PyVal) (content fm body : String)
        (cfg : AgentConfig),
        pyReMatchFrontmatter content = some (fm, body) →
        parse_agent_yaml yamlLoad content = .ok cfg →
        cfg.instructions = pyStrip body := by
  refine ⟨by rfl, ?_⟩
  intro yamlLoad content fm body cfg h1 h2
  simp only [parse_agent_yaml, h1] at h2
  rcases hL : yamlLoad fm with e | v <;> simp only [hL] at h2
  · exact absurd h2 (by simp)
  · cases v <;> simp only [] at h2 <;> try exact absurd h2 (by simp)
    case vdict m =>
      by_cases ht : pyTruthy (pyGet m "name") = true
      · rw [if_pos ht] at h2
        injection h2 with h3
        subst h3
        rfl
      · rw [if_neg ht] at h2
        exact absurd h2 (by simp)

/-- Witness for C1: the general clause instantiated at the scenario document. -/
theorem yaml_instructions_trimmed_witness : c1cfg.instructions = pyStrip "Be nice." :=
  yaml_instructions_trimmed.2 yamlSafeLoad c1doc "name: bot\ndescription: test"
    "Be nice." c1cfg (by rfl) yaml_instructions_trimmed.1

/-! ## C2 — missing markers, missing name, non-empty name invariant -/

/-- C2: a document the frontmatter regex rejects — in particular any document
that does not begin with the `---` marker — raises the format error
(`yaml_parser.py` lines 71–72); a document whose frontmatter mapping has no
`name` key raises the missing-field error whatever other keys are present
(lines 87–89); and every configuration `parse_agent_yaml` returns has a
truthy (in particular non-empty, non-`None`) `name`. -/
theorem yaml_required_markers_and_name :
    (∀ (yamlLoad : String → Except String PyVal) (content : String),
        pyReMatchFrontmatter content = none →
        parse_agent_yaml yamlLoad content = .error .formatError)
    ∧ (∀ (yamlLoad : String → Except String PyVal) (content : String),
        isPfx ['-', '-', '-'] content.data = false →
        parse_agent_yaml yamlLoad content = .error .formatError)
    ∧ (∀ (yamlLoad : String → Except String PyVal) (content fm body : String)
         (m : List (String × PyVal)),
        pyReMatchFrontmatter content = some (fm, body) →
        yamlLoad fm = .ok (.vdict m) →
        hasKey m "name" = false →
        parse_agent_yaml yamlLoad content = .error .missingField)
    ∧ (∀ (yamlLoad : String → Except String PyVal) (content : String)
         (cfg : AgentConfig),
        parse_agent_yaml yamlLoad content = .ok cfg →
        pyTruthy cfg.name = true ∧ cfg.name ≠ .vstr "" ∧ cfg.name ≠ .vnone) := by
  refine ⟨parse_formatError_of_reMatch_none, ?_, ?_, ?_⟩
  · intro yamlLoad content h
    exact parse_formatError_of_reMatch_none yamlLoad content
      (reMatch_none_of_no_marker content h)
  · intro yamlLoad content fm body m h1 h2 h3
    simp only [parse_agent_yaml, h1, h2, pyGet_eq_vnone_of_not_hasKey m "name" h3]
    rfl
  · intro yamlLoad content cfg h
    rcases hm : pyReMatchFrontmatter content with _ | ⟨fm, body⟩ <;>
      simp only [parse_agent_yaml, hm] at h
    · exact absurd h (by simp)
    · rcases hL : yamlLoad fm with e | v <;> simp only [hL] at h
      · exact absurd h (by simp)
      · cases v <;> simp only [] at h <;> try exact absurd h (by simp)
        case vdict m =>
          by_cases ht : pyTruthy (pyGet m "name") = true
          · rw [if_pos ht] at h
            injection h with h3
            subst h3
            refine ⟨ht, ?_, ?_⟩ <;> intro hx <;> simp only [] at hx <;> rw [hx] at ht <;>
              simp [pyTruthy] at ht
          · rw [if_neg ht] at h
            exact absurd h (by simp)

/-- Witness for C2: a markerless document, a document without `name`, and the
scenario configuration's truthy name. -/
theorem yaml_required_markers_and_name_witness :
    parse_agent_yaml yamlSafeLoad "no markers here" = .error .formatError
    ∧ parse_agent_yaml yamlSafeLoad c2docNoName = .error .missingField
    ∧ pyTruthy c1cfg.name = true :=
  ⟨yaml_required_markers_and_name.2.1 yamlSafeLoad "no markers here" (by rfl),
   yaml_required_markers_and_name.2.2.1 yamlSafeLoad c2docNoName
     "description: test" "Body" [("description", .vstr "test")] (by rfl) (by rfl) (by rfl),
   (yaml_required_markers_and_name.2.2.2 yamlSafeLoad c1doc c1cfg (by rfl)).1⟩

/-! ## C9 — "not a flat mapping" is only a top-level dictionary check

The source check (`yaml_parser.py` lines 83–84) is
`isinstance(frontmatter, dict)`: a mapping whose values are themselves
mappings passes it, so the claim that every non-flat frontmatter raises a
`FormatError` fails; only a non-dictionary top level (a list, a scalar,
`None`) is rejected. -/

/-- Counterexample to C9: the document whose frontmatter is
`name:\n  inner: x` — a mapping with a nested mapping value, hence not a
flat mapping — parses successfully instead of raising a format error. -/
theorem nested_frontmatter_counterexample :
    parse_agent_yaml yamlSafeLoad c9doc = .ok c9cfg
    ∧ parse_agent_yaml yamlSafeLoad c9doc ≠ .error .notFlatMapping
    ∧ parse_agent_yaml yamlSafeLoad c9doc ≠ .error .formatError := by
  refine ⟨by rfl, fun h => ?_, fun h => ?_⟩ <;>
    exact Except.noConfusion
      ((show parse_agent_yaml yamlSafeLoad c9doc = .ok c9cfg by rfl).symm.trans h)

/-- C9 amended: `parse_agent_yaml` raises the "Frontmatter must be a YAML
dictionary" format error exactly for frontmatter whose parsed value is not a
dictionary at top level (for example a YAML list); a dictionary containing
nested mappings as values is not rejected. -/
theorem frontmatter_not_dict_rejected :
    ∀ (yamlLoad : String → Except String PyVal) (content fm body : String)
      (v : PyVal),
      pyReMatchFrontmatter content = some (fm, body) →
      yamlLoad fm = .ok v →
      isDictB v = false →
      parse_agent_yaml yamlLoad content = .error .notFlatMapping := by
  intro yamlLoad content fm body v h1 h2 h3
  simp only [parse_agent_yaml, h1, h2]
  cases v <;> first
    | rfl
    | exact absurd h3 (by simp [isDictB])

/-- Witness for C9 amended: a YAML-list frontmatter is rejected. -/
theorem frontmatter_not_dict_rejected_witness :
    parse_agent_yaml yamlSafeLoad c9listdoc = .error .notFlatMapping :=
  frontmatter_not_dict_rejected yamlSafeLoad c9listdoc "- a\n- b" "Body"
    (.vlist [.vstr "a", .vstr "b"]) (by rfl) (by rfl) (by rfl)

/-! ## C10 — an empty metadata block is rejected -/

/-- C10: a document whose opening `---` marker line is immediately followed
by the closing `---` marker line — an empty metadata block — raises the
format error even though both markers are present, because the regex
requires at least one line between the markers.  The trailing text is
restricted to contain no further marker line (it neither begins with `---`
nor contains `"\n---"`), which is what makes the second line *the closing
marker*; without this restriction a later marker line can act as the closing
marker instead.  The second clause covers the document that ends at the
closing marker. -/
theorem empty_frontmatter_rejected :
    (∀ (yamlLoad : String → Except String PyVal) (body : String),
        isPfx ['-', '-', '-'] body.data = false →
        containsSub body.data nlMarker = false →
        parse_agent_yaml yamlLoad ("---\n---\n" ++ body) = .error .formatError)
    ∧ ∀ yamlLoad : String → Except String PyVal,
        parse_agent_yaml yamlLoad "---\n---" = .error .formatError := by
  constructor
  · intro yamlLoad body h1 h2
    apply parse_formatError_of_reMatch_none
    have hpfx : isPfx nlMarker ('\n' :: body.data) = false := by
      simp only [nlMarker, isPfx, beq_self_eq_true, Bool.true_and]
      exact h1
    have hfs3 : findSplit ('-' :: '-' :: '-' :: '\n' :: body.data) = none := by
      simp only [findSplit, hpfx, Bool.false_eq_true, if_false,
        findSplit_eq_none body.data h2,
        show ∀ l : List Char, isPfx nlMarker ('-' :: l) = false from fun _ => rfl]
    have htw : tryWs [0] ('\n' :: '-' :: '-' :: '-' :: '\n' :: body.data) = none := by
      show (match findSplit (('\n' :: '-' :: '-' :: '-' :: '\n' :: body.data).drop (0 + 1)) with
            | some (g1, after) => some (g1, after.dropWhile pyIsSpace)
            | none => tryWs [] ('\n' :: '-' :: '-' :: '-' :: '\n' :: body.data)) = none
      rw [show ('\n' :: '-' :: '-' :: '-' :: '\n' :: body.data).drop (0 + 1)
        = '-' :: '-' :: '-' :: '\n' :: body.data from rfl]
      rw [hfs3]
      rfl
    unfold pyReMatchFrontmatter
    rw [show ("---\n---\n" ++ body).data
      = '-' :: '-' :: '-' :: '\n' :: '-' :: '-' :: '-' :: '\n' :: body.data from rfl]
    rw [if_pos (show isPfx ['-', '-', '-']
      ('-' :: '-' :: '-' :: '\n' :: '-' :: '-' :: '-' :: '\n' :: body.data) = true from rfl)]
    show (match tryWs [0] ('\n' :: '-' :: '-' :: '-' :: '\n' :: body.data) with
          | some (g1, g2) => some ((⟨g1⟩ : String), (⟨g2⟩ : String))
          | none => none) = none
    rw [htw]
  · intro yamlLoad
    exact parse_formatError_of_reMatch_none yamlLoad "---\n---" (by rfl)

/-- Witness for C10: the canonical empty-metadata document. -/
theorem empty_frontmatter_rejected_witness :
    parse_agent_yaml yamlSafeLoad ("---\n---\n" ++ "Be nice.") = .error .formatError :=
  empty_frontmatter_rejected.1 yamlSafeLoad "Be nice." (by rfl) (by rfl)

/-! ## C3 — quota arithmetic and the non-fatal failure paths -/

/-- C3: on a successful usage query, `_check_model_quota` reports quota
available if and only if some entry that survives the SKU filter and matches
the model has `limit − currentValue > 0` — so when every kept entry's
availability is zero or negative the no-quota result is returned — and a
failed query (non-zero exit or exception) yields the available result. -/
theorem quota_availability_iff :
    (∀ (model_name : String) (usages : List Usage),
        (check_model_quota model_name (.ok usages)).1 = true ↔
          ∃ u ∈ usages, keptEntry model_name u = true ∧ u.limit - u.currentValue > 0)
    ∧ (∀ model_name : String, (check_model_quota model_name .toolFail).1 = true)
    ∧ ∀ model_name e : String, (check_model_quota model_name (.exc e)).1 = true := by
  refine ⟨?_, fun _ => rfl, fun _ _ => rfl⟩
  intro model_name usages
  induction usages with
  | nil => simp [check_model_quota, quotaScan]
  | cons u rest ih =>
    simp only [check_model_quota] at ih ⊢
    by_cases hs : quotaSkip (pyLower u.name) = true
    · simp [quotaScan, hs, ih, keptEntry]
    · by_cases hm : quotaMatch (pyLower model_name) (pyLower u.name) = true
      · by_cases ha : u.limit - u.currentValue > 0
        · simp only [quotaScan, hs, Bool.false_eq_true, if_false, hm, if_true, ha]
          simp only [true_iff]
          exact ⟨u, List.mem_cons_self u rest, by simp [keptEntry, hs, hm], ha⟩
        · simp only [quotaScan, hs, Bool.false_eq_true, if_false, hm, if_true, ha, ih,
            keptEntry]
          constructor
          · intro hex
            obtain ⟨x, hx1, hx2, hx3⟩ := hex
            exact ⟨x, List.mem_cons_of_mem u hx1, hx2, hx3⟩
          · intro hex
            obtain ⟨x, hx1, hx2, hx3⟩ := hex
            rcases List.mem_cons.mp hx1 with h | h
            · subst h
              exact absurd hx3 ha
            · exact ⟨x, h, hx2, hx3⟩
      · simp [quotaScan, hs, hm, ih, keptEntry]

/-- Witness for C3: all-exhausted usage (zero and negative availability)
reports no quota; positive availability, a failed query, and an exception all
report quota available. -/
theorem quota_availability_iff_witness :
    (check_model_quota "gpt-4o" (.ok c3usages)).1 = false
    ∧ (check_model_quota "gpt-4o" (.ok c3usagesPos)).1 = true
    ∧ (check_model_quota "gpt-4o" .toolFail).1 = true
    ∧ (check_model_quota "gpt-4o" (.exc "boom")).1 = true := by
  refine ⟨?_, ?_, quota_availability_iff.2.1 "gpt-4o",
    quota_availability_iff.2.2 "gpt-4o" "boom"⟩
  · have h2 : ¬ ∃ u ∈ c3usages, keptEntry "gpt-4o" u = true
        ∧ u.limit - u.currentValue > 0 := by decide
    exact Bool.eq_false_iff.mpr
      (fun ht => h2 ((quota_availability_iff.1 "gpt-4o" c3usages).mp ht))
  · exact (quota_availability_iff.1 "gpt-4o" c3usagesPos).mpr
      ⟨⟨"OpenAI.GlobalStandard.gpt-4o", 5, 8⟩, by decide, by decide, by decide⟩

/-! ## C8 — `select_from_list` auto-selection and index handling -/

/-- C8: a one-element list is auto-selected (index `0`) with no input read;
for a longer list one input line is read and the 1-based index is returned
0-based when in range, while non-numeric input and out-of-range indices give
`None` (cancellation). -/
theorem select_from_list_spec :
    (∀ (α : Type) (items : List α) (inputs : List String),
        items.length = 1 →
        select_from_list items inputs = (.res (some 0), inputs))
    ∧ ∀ (α : Type) (items : List α) (choice : String) (rest : List String),
        2 ≤ items.length →
        ((pyInt (pyStrip choice) = none →
            select_from_list items (choice :: rest) = (.res none, rest))
         ∧ (∀ n : Int, pyInt (pyStrip choice) = some n → 1 ≤ n →
              n ≤ (items.length : Int) →
              select_from_list items (choice :: rest) = (.res (some (n - 1)), rest))
         ∧ ∀ n : Int, pyInt (pyStrip choice) = some n →
              (n < 1 ∨ (items.length : Int) < n) →
              select_from_list items (choice :: rest) = (.res none, rest)) := by
  constructor
  · intro α items inputs h
    have hne : items.isEmpty = false := by cases items <;> simp_all
    simp [select_from_list, hne, h]
  · intro α items choice rest hlen2
    have hne : items.isEmpty = false := by cases items <;> simp_all
    have hlen : ¬ items.length = 1 := by omega
    refine ⟨?_, ?_, ?_⟩
    · intro hpi
      simp [select_from_list, hne, hlen, hpi]
    · intro n hpi h1 hn
      have hred : select_from_list items (choice :: rest)
          = if 0 ≤ n - 1 ∧ n - 1 < (items.length : Int)
            then (.res (some (n - 1)), rest) else (.res none, rest) := by
        simp [select_from_list, hne, hlen, hpi]
      rw [hred, if_pos (by omega)]
    · intro n hpi hout
      have hred : select_from_list items (choice :: rest)
          = if 0 ≤ n - 1 ∧ n - 1 < (items.length : Int)
            then (.res (some (n - 1)), rest) else (.res none, rest) := by
        simp [select_from_list, hne, hlen, hpi]
      rw [hred, if_neg (by omega)]

/-- Witness for C8: a singleton auto-selects without touching the inputs; on
a three-element list `" 2 "` selects index `1`, `"abc"` cancels, and `"4"`,
`"0"` and `"-1"` cancel. -/
theorem select_from_list_spec_witness :
    select_from_list ["only"] ["9"] = (.res (some 0), ["9"])
    ∧ select_from_list ["a", "b", "c"] [" 2 "] = (.res (some 1), [])
    ∧ select_from_list ["a", "b", "c"] ["abc"] = (.res none, [])
    ∧ select_from_list ["a", "b", "c"] ["4"] = (.res none, [])
    ∧ select_from_list ["a", "b", "c"] ["0"] = (.res none, [])
    ∧ select_from_list ["a", "b", "c"] ["-1"] = (.res none, []) :=
  ⟨select_from_list_spec.1 String ["only"] ["9"] (by rfl),
   (select_from_list_spec.2 String ["a", "b", "c"] " 2 " [] (by decide)).2.1 2
     (by rfl) (by decide) (by decide),
   (select_from_list_spec.2 String ["a", "b", "c"] "abc" [] (by decide)).1 (by rfl),
   (select_from_list_spec.2 String ["a", "b", "c"] "4" [] (by decide)).2.2 4
     (by rfl) (by decide),
   (select_from_list_spec.2 String ["a", "b", "c"] "0" [] (by decide)).2.2 0
     (by rfl) (by decide),
   (select_from_list_spec.2 String ["a", "b", "c"] "-1" [] (by decide)).2.2 (-1)
     (by rfl) (by decide)⟩

/-! ## C7 — exact model-hint match is auto-selected -/

/-- `find?` returns the unique element satisfying the predicate. -/
theorem find_eq_of_unique {α : Type} (p : α → Bool) (l : List α) (d : α)
    (hd : d ∈ l) (hp : p d = true) (hu : ∀ x ∈ l, p x = true → x = d) :
    l.find? p = some d := by
  induction l with
  | nil => cases hd
  | cons a tl ih =>
    by_cases ha : p a = true
    · have : a = d := hu a (List.mem_cons_self a tl) ha
      subst this
      simp [List.find?, ha]
    · have hda : d ∈ tl := by
        rcases List.mem_cons.mp hd with h | h
        · exact absurd (h ▸ hp) ha
        · exact h
      rw [List.find?_cons_of_neg _ (by simp [ha])]
      exact ih hda (fun x hx hpx => hu x (List.mem_cons_of_mem a hx) hpx)

/-- C7: when the model hint matches, case-insensitively, the deployment name
or underlying model name of exactly one deployment in the non-empty list,
`select_deployment` returns that deployment and consumes no user input
(`create-agent.py` lines 343–350, the first pass). -/
theorem deployment_exact_hint_autoselect :
    ∀ (deployments : List ModelDeployment) (model_hint : String)
      (quota : Bool × String) (deployOk : Bool)
      (refreshed : List ModelDeployment) (inputs : List String)
      (d : ModelDeployment),
      deployments ≠ [] →
      model_hint ≠ "" →
      d ∈ deployments →
      exactMatchB (pyLower model_hint) d = true →
      (∀ x ∈ deployments, exactMatchB (pyLower model_hint) x = true → x = d) →
      select_deployment deployments model_hint quota deployOk refreshed inputs
        = (.selected d, inputs) := by
  intro ds mh quota dok refreshed inputs d hne hh hd hx hu
  have hne2 : ds.isEmpty = false := by cases ds <;> simp_all
  have hfind := find_eq_of_unique (exactMatchB (pyLower mh)) ds d hd hx hu
  simp [select_deployment, hne2, selectDeploymentMatch, hh, hfind]

/-- Witness for C7: the hint `GPT-4o-mini` matches exactly one of two
deployments; it is returned with the input stream untouched. -/
theorem deployment_exact_hint_autoselect_witness :
    select_deployment c7deps "GPT-4o-mini" (false, "nope") false [] ["n", "n"]
      = (.selected ⟨"gpt-4o-mini", "gpt-4o-mini", "1"⟩, ["n", "n"]) :=
  deployment_exact_hint_autoselect c7deps "GPT-4o-mini" (false, "nope") false []
    ["n", "n"] ⟨"gpt-4o-mini", "gpt-4o-mini", "1"⟩ (by decide) (by decide)
    (by decide) (by decide) (by decide)

/-! ## C5 — one retry with a fresh client after a name collision -/

/-- C5: if the first creation attempt (on client 0) raises the
name-collision error, and the user supplies a new name under which creation
succeeds (on every client), then `create_agent` makes exactly one retry —
the `create`-call trace is `[(0, original), (1, new)]`, the retry running on
the freshly constructed client 1 — and the returned `CreatedAgent` carries
the new name, not the original (`agent_builder.py` lines 102–120). -/
theorem name_collision_retry_once :
    ∀ (createFn : Nat → String → Except CreateErr AgentRec)
      (getFn : Nat → String → Except String (Option AgentRec))
      (endpoint model name instructions description rg pn inp : String)
      (rest : List String) (rec : AgentRec),
      createFn 0 name = .error .resourceExists →
      pyLower (pyStrip inp) ≠ "q" →
      pyStrip inp ≠ "" →
      (∀ c, createFn c (pyStrip inp) = .ok rec) →
      rec.name = some (pyStrip inp) →
      (∀ c, getFn c (pyStrip inp) = .ok (some rec)) →
      truthyId rec = true →
      create_agent createFn getFn (inp :: rest) endpoint model name instructions
          description rg pn
        = (.ok { agent_id := rec.id, name := pyStrip inp, model := model,
                 endpoint := pyRstripSlash endpoint, resource_group := rg,
                 project_name := pn },
           [(0, name), (1, pyStrip inp)]) := by
  intro cf gf endpoint model name instr desc rg pn inp rest rec h1 h2 h3 h4 h5 h6 h7
  have hloop2 : createLoop cf rest 1 ⟨some 1, 2⟩ (pyStrip inp) [(0, name)]
      = (.ok (rec, pyStrip inp), 1, ⟨some 1, 2⟩, [(0, name), (1, pyStrip inp)]) := by
    rw [createLoop_eq, h4 1]
    rfl
  have hloop1 : createLoop cf (inp :: rest) 0 ⟨some 0, 1⟩ name []
      = (.ok (rec, pyStrip inp), 1, ⟨some 1, 2⟩, [(0, name), (1, pyStrip inp)]) := by
    rw [createLoop_eq, h1]
    simp only []
    rw [if_neg (not_or.mpr ⟨h2, h3⟩)]
    simp only [getClient, List.nil_append]
    exact hloop2
  show finishCreate gf model (pyRstripSlash endpoint) rg pn
      (createLoop cf (inp :: rest) 0 ⟨some 0, 1⟩ name []) = _
  rw [hloop1]
  simp only [finishCreate, h6 1]
  rw [if_pos h7, h5]
  rfl

/-- Witness for C5: `bot` collides, the user supplies `newbot`, creation
retries exactly once on the fresh client and returns the new name. -/
theorem name_collision_retry_once_witness :
    create_agent c5createFn c5getFn ["newbot"] "https://e/" "gpt-4o-mini" "bot"
        "instr" "desc" "rg" "pn"
      = (.ok { agent_id := some "id-1", name := "newbot", model := "gpt-4o-mini",
               endpoint := "https://e", resource_group := "rg", project_name := "pn" },
         [(0, "bot"), (1, "newbot")]) :=
  name_collision_retry_once c5createFn c5getFn "https://e/" "gpt-4o-mini" "bot"
    "instr" "desc" "rg" "pn" "newbot" [] ⟨some "id-1", some "newbot"⟩
    (by rfl) (by decide) (by decide) (fun c => by rfl) (by rfl) (fun c => by rfl) (by rfl)

/-! ## C6 — failed verification read-back fails the creation -/

/-- C6: after the create call returns successfully (here on the first
attempt, client 0), `create_agent` reads the final name back with
`agents.get`; if that read-back raises, returns nothing, or returns a record
whose identifier is missing or empty, `create_agent` raises the
"was not created" error even though the create call itself returned
(`agent_builder.py` lines 122–129). -/
theorem create_verification_failure :
    ∀ (createFn : Nat → String → Except CreateErr AgentRec)
      (getFn : Nat → String → Except String (Option AgentRec))
      (inputs : List String)
      (endpoint model name instructions description rg pn : String)
      (rec : AgentRec),
      createFn 0 name = .ok rec →
      ((∀ e : String, getFn 0 name = .error e →
          (create_agent createFn getFn inputs endpoint model name instructions
            description rg pn).1
            = .error (.verifyFailed ("Agent '" ++ name ++ "' was not created: " ++ e)))
       ∧ (getFn 0 name = .ok none →
          (create_agent createFn getFn inputs endpoint model name instructions
            description rg pn).1
            = .error (.verifyFailed ("Agent '" ++ name ++ "' was not created: Agent '"
                ++ name ++ "' creation could not be verified")))
       ∧ ∀ v : AgentRec, getFn 0 name = .ok (some v) → truthyId v = false →
          (create_agent createFn getFn inputs endpoint model name instructions
            description rg pn).1
            = .error (.verifyFailed ("Agent '" ++ name ++ "' was not created: Agent '"
                ++ name ++ "' creation could not be verified"))) := by
  intro cf gf inputs endpoint model name instr desc rg pn rec hc
  have hloop : createLoop cf inputs 0 ⟨some 0, 1⟩ name []
      = (.ok (rec, name), 0, ⟨some 0, 1⟩, [(0, name)]) := by
    rw [createLoop_eq, hc]
    rfl
  refine ⟨?_, ?_, ?_⟩
  · intro e hg
    show (finishCreate gf model (pyRstripSlash endpoint) rg pn
      (createLoop cf inputs 0 ⟨some 0, 1⟩ name [])).1 = _
    rw [hloop]
    simp only [finishCreate, hg]
  · intro hg
    show (finishCreate gf model (pyRstripSlash endpoint) rg pn
      (createLoop cf inputs 0 ⟨some 0, 1⟩ name [])).1 = _
    rw [hloop]
    simp only [finishCreate, hg]
  · intro v hg hv
    show (finishCreate gf model (pyRstripSlash endpoint) rg pn
      (createLoop cf inputs 0 ⟨some 0, 1⟩ name [])).1 = _
    rw [hloop]
    simp only [finishCreate, hg, hv, Bool.false_eq_true, if_false]

/-- Witness for C6: a create call that succeeds followed by a read-back that
raises, returns nothing, or returns a record with no id, each of which fails
the creation. -/
theorem create_verification_failure_witness :
    (create_agent c6createFn c6getFnRaise [] "https://e" "m" "bot" "i" "d" "rg" "pn").1
      = .error (.verifyFailed "Agent 'bot' was not created: connection reset")
    ∧ (create_agent c6createFn c6getFnNone [] "https://e" "m" "bot" "i" "d" "rg" "pn").1
      = .error (.verifyFailed
          "Agent 'bot' was not created: Agent 'bot' creation could not be verified")
    ∧ (create_agent c6createFn c6getFnNoId [] "https://e" "m" "bot" "i" "d" "rg" "pn").1
      = .error (.verifyFailed
          "Agent 'bot' was not created: Agent 'bot' creation could not be verified") :=
  ⟨(create_verification_failure c6createFn c6getFnRaise [] "https://e" "m" "bot"
      "i" "d" "rg" "pn" ⟨some "id-9", some "bot"⟩ (by rfl)).1 "connection reset" (by rfl),
   (create_verification_failure c6createFn c6getFnNone [] "https://e" "m" "bot"
      "i" "d" "rg" "pn" ⟨some "id-9", some "bot"⟩ (by rfl)).2.1 (by rfl),
   (create_verification_failure c6createFn c6getFnNoId [] "https://e" "m" "bot"
      "i" "d" "rg" "pn" ⟨some "id-9", some "bot"⟩ (by rfl)).2.2
      ⟨none, some "bot"⟩ (by rfl) (by rfl)⟩

/-! ## C4 — the sidecar round trip

`create_agent_interactive` writes `Agent ID: {result.agent_id}` into the
sidecar file, and `parse_agent_file` reads the `Agent ID:` line back as the
*agent name*.  The round trip therefore recovers `(agent_id, endpoint)`, not
`(name, endpoint)`: the claim fails whenever the created agent's id differs
from its name.  The lemmas below evaluate `parse_agent_file` on the sidecar
text symbolically. -/

/-- One step of `splitLines` on a non-newline head. -/
theorem splitLines_cons_not_nl (c : Char) (t : List Char) (hc : ¬ c = '\n') :
    splitLines (c :: t) = consHead c (splitLines t) := by
  simp [splitLines, if_neg hc]

/-- Lines without `'\n'` pass through `splitLines` around a separator. -/
theorem splitLines_append_nl (a : List Char) (b : List Char) (h : '\n' ∉ a) :
    splitLines (a ++ '\n' :: b) = a :: splitLines b := by
  induction a with
  | nil => simp [splitLines]
  | cons c t ih =>
    have hc : ¬ c = '\n' := fun hh => h (hh ▸ List.mem_cons_self c t)
    have ht : '\n' ∉ t := fun hh => h (List.mem_cons_of_mem c hh)
    rw [List.cons_append, splitLines_cons_not_nl c _ hc, ih ht]
    rfl

/-- A newline-free text is a single line. -/
theorem splitLines_no_nl (a : List Char) (h : '\n' ∉ a) : splitLines a = [a] := by
  induction a with
  | nil => rfl
  | cons c t ih =>
    have hc : ¬ c = '\n' := fun hh => h (hh ▸ List.mem_cons_self c t)
    have ht : '\n' ∉ t := fun hh => h (List.mem_cons_of_mem c hh)
    rw [splitLines_cons_not_nl c _ hc, ih ht]
    rfl

/-- `splitLines` inverts `joinNL` on non-empty lists of newline-free lines. -/
theorem splitLines_joinNL : ∀ ls : List (List Char), ls ≠ [] →
    (∀ l ∈ ls, '\n' ∉ l) → splitLines (joinNL ls) = ls
  | [], hne, _ => absurd rfl hne
  | [l], _, h => splitLines_no_nl l (h l (List.mem_cons_self l []))
  | l :: l2 :: tl2, _, h => by
    rw [show joinNL (l :: l2 :: tl2) = l ++ '\n' :: joinNL (l2 :: tl2) from rfl,
      splitLines_append_nl l _ (h l (List.mem_cons_self _ _)),
      splitLines_joinNL (l2 :: tl2) (by simp)
        (fun x hx => h x (List.mem_cons_of_mem l hx))]

/-- Concatenation preserves newline-freeness. -/
theorem noNL_append {a b : List Char} (ha : '\n' ∉ a) (hb : '\n' ∉ b) :
    '\n' ∉ a ++ b := by
  intro h
  rcases List.mem_append.mp h with h | h
  exacts [ha h, hb h]

/-- Right-trimming yields a prefix of the input. -/
theorem pyTrimR_pfx (l : List Char) : pyTrimR l <+: l := by
  unfold pyTrimR
  have h2 := List.reverse_prefix.mpr (@List.dropWhile_suffix Char l.reverse pyIsSpace)
  rwa [List.reverse_reverse] at h2

/-- `isPfx` is monotone along list prefixes. -/
theorem isPfx_extend : ∀ (p l₁ l₂ : List Char), l₁ <+: l₂ →
    isPfx p l₁ = true → isPfx p l₂ = true
  | [], _, _, _, _ => rfl
  | a :: ps, [], _, _, h => by simp [isPfx] at h
  | a :: ps, c :: t, l₂, hp, h => by
    obtain ⟨u, rfl⟩ := hp
    simp only [isPfx, Bool.and_eq_true] at h
    simp only [List.cons_append, isPfx, Bool.and_eq_true]
    exact ⟨h.1, isPfx_extend ps t (t ++ u) ⟨u, rfl⟩ h.2⟩

/-- A line whose left-trim matches neither key is skipped by
`parseLineStep`. -/
theorem step_skip (line : List Char)
    (h1 : isPfx keyAgentId (pyTrimL line) = false)
    (h2 : isPfx keyEndpoint (pyTrimL line) = false) :
    ∀ st, parseLineStep st line = st := by
  intro st
  have hpre : pyTrim line <+: pyTrimL line := pyTrimR_pfx (pyTrimL line)
  have k1 : isPfx keyAgentId (pyTrim line) = false := by
    by_contra hb
    rw [Bool.not_eq_false] at hb
    exact absurd (isPfx_extend _ _ _ hpre hb) (by simp [h1])
  have k2 : isPfx keyEndpoint (pyTrim line) = false := by
    by_contra hb
    rw [Bool.not_eq_false] at hb
    exact absurd (isPfx_extend _ _ _ hpre hb) (by simp [h2])
  simp only [parseLineStep, k1, k2, Bool.false_eq_true, if_false]

/-- A list of skipped lines leaves the fold state unchanged. -/
theorem foldl_skip_all (A : List (List Char))
    (hA : ∀ l ∈ A, ∀ st, parseLineStep st l = st) :
    ∀ st, List.foldl parseLineStep st A = st := by
  induction A with
  | nil => intro st; rfl
  | cons a tl ih =>
    intro st
    rw [List.foldl_cons, hA a (List.mem_cons_self a tl)]
    exact ih (fun l hl => hA l (List.mem_cons_of_mem a hl)) st

/-- Right-trimming does not cross a strip-invariant non-empty suffix. -/
theorem pyTrimR_append_of (xs ys : List Char) (hne : ys ≠ [])
    (h : pyTrimR ys = ys) : pyTrimR (xs ++ ys) = xs ++ ys := by
  unfold pyTrimR at h ⊢
  rw [List.reverse_append]
  cases hys : ys.reverse with
  | nil => exact absurd (by simpa using congrArg List.reverse hys) hne
  | cons c t =>
    have hd : List.dropWhile pyIsSpace ys.reverse = ys.reverse := by
      have h2 := congrArg List.reverse h
      rwa [List.reverse_reverse] at h2
    have hpc : pyIsSpace c = false := by
      rw [hys, List.dropWhile_cons] at hd
      by_contra hb
      rw [Bool.not_eq_false] at hb
      rw [if_pos hb] at hd
      have := congrArg List.length hd
      have hle := (@List.dropWhile_suffix Char t pyIsSpace).sublist.length_le
      simp at this
      omega
    rw [List.cons_append, List.dropWhile_cons, hpc]
    simp only [Bool.false_eq_true, if_false]
    have hys2 : ys = (c :: t).reverse := by rw [← hys, List.reverse_reverse]
    rw [hys2]
    simp [List.reverse_cons, List.reverse_append, List.append_assoc]

/-- `parseLineStep` on the `Agent ID:` line stores the trimmed id. -/
theorem parseLineStep_agentId (st : Option String × Option String) (aid : String)
    (hL : pyTrimL aid.data = aid.data) (hR : pyTrimR aid.data = aid.data)
    (hne : aid ≠ "") :
    parseLineStep st ("Agent ID: ".data ++ aid.data) = (some aid, st.2) := by
  have hdne : aid.data ≠ [] := fun h => hne (String.ext h)
  have htrim : pyTrim ("Agent ID: ".data ++ aid.data)
      = "Agent ID: ".data ++ aid.data := by
    show pyTrimR (pyTrimL ("Agent ID: ".data ++ aid.data)) = _
    rw [show pyTrimL ("Agent ID: ".data ++ aid.data)
      = "Agent ID: ".data ++ aid.data from rfl]
    exact pyTrimR_append_of _ _ hdne hR
  have hval : pyTrim (splitColonAfter ("Agent ID: ".data ++ aid.data)) = aid.data := by
    rw [show splitColonAfter ("Agent ID: ".data ++ aid.data)
      = ' ' :: aid.data from rfl]
    show pyTrimR (pyTrimL (' ' :: aid.data)) = _
    rw [show pyTrimL (' ' :: aid.data) = pyTrimL aid.data from rfl, hL, hR]
  simp only [parseLineStep, htrim]
  rw [if_pos (show isPfx keyAgentId ("Agent ID: ".data ++ aid.data) = true from rfl)]
  rw [hval]

/-- `parseLineStep` on the `Endpoint:` line stores the trimmed endpoint. -/
theorem parseLineStep_endpoint (st : Option String × Option String) (ep : String)
    (hL : pyTrimL ep.data = ep.data) (hR : pyTrimR ep.data = ep.data)
    (hne : ep ≠ "") :
    parseLineStep st ("Endpoint: ".data ++ ep.data) = (st.1, some ep) := by
  have hdne : ep.data ≠ [] := fun h => hne (String.ext h)
  have htrim : pyTrim ("Endpoint: ".data ++ ep.data)
      = "Endpoint: ".data ++ ep.data := by
    show pyTrimR (pyTrimL ("Endpoint: ".data ++ ep.data)) = _
    rw [show pyTrimL ("Endpoint: ".data ++ ep.data)
      = "Endpoint: ".data ++ ep.data from rfl]
    exact pyTrimR_append_of _ _ hdne hR
  have hval : pyTrim (splitColonAfter ("Endpoint: ".data ++ ep.data)) = ep.data := by
    rw [show splitColonAfter ("Endpoint: ".data ++ ep.data)
      = ' ' :: ep.data from rfl]
    show pyTrimR (pyTrimL (' ' :: ep.data)) = _
    rw [show pyTrimL (' ' :: ep.data) = pyTrimL ep.data from rfl, hL, hR]
  simp only [parseLineStep, htrim]
  simp only [show isPfx keyAgentId ("Endpoint: ".data ++ ep.data) = false from rfl,
    Bool.false_eq_true, if_false]
  rw [if_pos (show isPfx keyEndpoint ("Endpoint: ".data ++ ep.data) = true from rfl)]
  rw [hval]

/-- Folding `parseLineStep` over a skipped line, the two key lines, and more
skipped lines yields exactly the trimmed id/endpoint pair. -/
theorem foldl_sidecar (a : List Char) (M : List (List Char)) (aid ep : String)
    (ha : ∀ st, parseLineStep st a = st)
    (hM : ∀ l ∈ M, ∀ st, parseLineStep st l = st)
    (haL : pyTrimL aid.data = aid.data) (haR : pyTrimR aid.data = aid.data)
    (hane : aid ≠ "")
    (heL : pyTrimL ep.data = ep.data) (heR : pyTrimR ep.data = ep.data)
    (hene : ep ≠ "") :
    List.foldl parseLineStep (none, none)
      (a :: ("Agent ID: ".data ++ aid.data) :: ("Endpoint: ".data ++ ep.data) :: M)
      = (some aid, some ep) := by
  rw [List.foldl_cons, ha, List.foldl_cons,
    parseLineStep_agentId _ _ haL haR hane, List.foldl_cons,
    parseLineStep_endpoint _ _ heL heR hene]
  exact foldl_skip_all M hM _

/-- Counterexample to C4: for a created agent whose id `agent-xyz-123`
differs from its name `bot`, parsing the sidecar file recovers the id, not
the name — the recovered pair is not the `(name, endpoint)` pair. -/
theorem sidecar_roundtrip_name_counterexample :
    parse_agent_file (sidecarText "bot" c4agent)
      = .ok ("agent-xyz-123", "https://res.services.ai.azure.com/api/projects/proj")
    ∧ parse_agent_file (sidecarText "bot" c4agent)
      ≠ .ok ("bot", "https://res.services.ai.azure.com/api/projects/proj")
    ∧ c4agent.name = "bot" := by
  refine ⟨by rfl, fun h => ?_, rfl⟩
  have h2 := (show parse_agent_file (sidecarText "bot" c4agent)
    = .ok ("agent-xyz-123", "https://res.services.ai.azure.com/api/projects/proj")
    from rfl).symm.trans h
  injection h2 with h3
  injection h3 with h4 h5
  exact absurd h4 (by decide)

/-- C4 amended: for every created agent (with newline-free fields, and id and
endpoint non-empty and free of surrounding whitespace), parsing the sidecar
text written by the create flow with the test entry point's
`parse_agent_file` recovers exactly the `(agent_id, endpoint)` pair; this
coincides with `(name, endpoint)` precisely when the agent's id equals its
name. -/
theorem sidecar_roundtrip_agent_id :
    ∀ cfgName rname rmodel rep rrg rpn aid : String,
      '\n' ∉ cfgName.data → '\n' ∉ rname.data → '\n' ∉ rmodel.data →
      '\n' ∉ aid.data → '\n' ∉ rep.data →
      pyTrimL aid.data = aid.data → pyTrimR aid.data = aid.data → aid ≠ "" →
      pyTrimL rep.data = rep.data → pyTrimR rep.data = rep.data → rep ≠ "" →
      parse_agent_file
          (sidecarText cfgName ⟨some aid, rname, rmodel, rep, rrg, rpn⟩)
        = .ok (aid, rep) := by
  intro cfgName rname rmodel rep rrg rpn aid hcfg hn hm hai hep haL haR hane heL heR hene
  have strd : ∀ a b : String, (a ++ b).data = a.data ++ b.data := fun _ _ => rfl
  have hsplit : splitLines
        (sidecarText cfgName ⟨some aid, rname, rmodel, rep, rrg, rpn⟩).data
      = (sidecarLines cfgName ⟨some aid, rname, rmodel, rep, rrg, rpn⟩).map
          String.data := by
    rw [show (sidecarText cfgName ⟨some aid, rname, rmodel, rep, rrg, rpn⟩).data
      = joinNL ((sidecarLines cfgName ⟨some aid, rname, rmodel, rep, rrg, rpn⟩).map
          String.data) from rfl]
    apply splitLines_joinNL
    · simp [sidecarLines]
    · intro l hl
      simp only [sidecarLines, showOpt, List.map_cons, List.map_nil, strd,
        List.mem_cons, List.not_mem_nil, or_false] at hl
      rcases hl with rfl | rfl | rfl | rfl | rfl | rfl | rfl | rfl | rfl | rfl | rfl |
        rfl | rfl | rfl | rfl | rfl | rfl | rfl | rfl | rfl | rfl | rfl | rfl | rfl |
        rfl | rfl
      · exact noNL_append (by decide) hcfg
      · exact noNL_append (by decide) hai
      · exact noNL_append (by decide) hep
      · exact noNL_append (by decide) hm
      · decide
      · decide
      · decide
      · decide
      · decide
      · decide
      · decide
      · exact noNL_append (noNL_append (by decide) hep) (by decide)
      · decide
      · decide
      · decide
      · decide
      · decide
      · decide
      · decide
      · decide
      · decide
      · exact noNL_append (noNL_append (by decide) hn) (by decide)
      · decide
      · decide
      · decide
      · decide
  have hfold : List.foldl parseLineStep (none, none)
        (splitLines
          (sidecarText cfgName ⟨some aid, rname, rmodel, rep, rrg, rpn⟩).data)
      = (some aid, some rep) := by
    rw [hsplit]
    simp only [sidecarLines, showOpt, List.map_cons, List.map_nil, strd]
    apply foldl_sidecar _ _ aid rep _ _ haL haR hane heL heR hene
    · exact step_skip _ (by rfl) (by rfl)
    · intro l hl
      simp only [List.mem_cons, List.not_mem_nil, or_false] at hl
      rcases hl with rfl | rfl | rfl | rfl | rfl | rfl | rfl | rfl | rfl | rfl | rfl |
          rfl | rfl | rfl | rfl | rfl | rfl | rfl | rfl | rfl | rfl | rfl | rfl <;>
        exact step_skip _ (by rfl) (by rfl)
  simp only [parse_agent_file, hfold]
  rw [if_neg (not_or.mpr ⟨hane, hene⟩)]

/-- Witness for C4 amended: the concrete agent of the counterexample, whose
id is recovered exactly. -/
theorem sidecar_roundtrip_agent_id_witness :
    parse_agent_file
        (sidecarText "bot"
          ⟨some "agent-xyz-123", "bot", "gpt-4o-mini",
            "https://res.services.ai.azure.com/api/projects/proj", "rg", "proj"⟩)
      = .ok ("agent-xyz-123", "https://res.services.ai.azure.com/api/projects/proj") :=
  sidecar_roundtrip_agent_id "bot" "bot" "gpt-4o-mini"
    "https://res.services.ai.azure.com/api/projects/proj" "rg" "proj" "agent-xyz-123"
    (by decide) (by decide) (by decide) (by decide) (by decide)
    (by rfl) (by rfl) (by decide) (by rfl) (by rfl) (by decide)

end AgentDeploy
